import Mathlib

/-!
Verification development for the GenesisAI plant-care backend.

This file gives a shallow embedding of the telemetry pipeline of the Python
backend: the history buffer of `SensorService`, the `WebSocketManager`
broadcast hub, the threshold alert rules of `PlantCareScheduler`, the
recommendation generator and trend forecast engine of
`AIPlantAnalysisService`, and the degraded-mode simulated-data generator.
Numeric values are modelled as exact rationals (the Python code uses
floats); Python `round` is modelled as round-half-to-even on rationals.
-/

namespace GenesisAI

/-- Telemetry record mirroring the pydantic `TelemetryData` schema in
`app/schemas/plant_schemas.py`: required temperature, humidity, soil
moisture and CO2 fields plus optional light / pH / nutrient fields. -/
structure TelemetryData where
  temperature : ℚ
  humidity : ℚ
  soil_moisture : ℚ
  co2_level : ℤ
  light_level : Option ℚ := none
  ph_level : Option ℚ := none
  nutrient_level : Option ℚ := none
deriving DecidableEq, Repr

/-- The pydantic field constraints declared on `TelemetryData`:
temperature in [-50, 100], humidity in [0, 100], soil moisture in [0, 1],
CO2 in [0, 5000], light ≥ 0, pH in [0, 14], nutrients ≥ 0 (optional fields
are only checked when present). -/
def validTelemetry (t : TelemetryData) : Bool :=
  decide (-50 ≤ t.temperature) && decide (t.temperature ≤ 100) &&
  decide (0 ≤ t.humidity) && decide (t.humidity ≤ 100) &&
  decide (0 ≤ t.soil_moisture) && decide (t.soil_moisture ≤ 1) &&
  decide (0 ≤ t.co2_level) && decide (t.co2_level ≤ 5000) &&
  t.light_level.all (fun x => decide (0 ≤ x)) &&
  t.ph_level.all (fun x => decide (0 ≤ x) && decide (x ≤ 14)) &&
  t.nutrient_level.all (fun x => decide (0 ≤ x))

/-- One entry of `SensorService.reading_history`: the telemetry fields
together with the capture timestamp (modelled in seconds). -/
structure Reading where
  data : TelemetryData
  timestamp : ℤ
deriving DecidableEq, Repr

/-- `SensorService.max_history` (1000). -/
def maxHistory : ℕ := 1000

/-- `SensorService._add_to_history` with the capacity as a parameter: the
code appends the new reading and, when the length exceeds `max_history`,
keeps the slice `reading_history[-max_history:]` (the last `cap` items). -/
def addToHistoryCap (cap : ℕ) (history : List Reading) (r : Reading) : List Reading :=
  if cap < (history ++ [r]).length then
    (history ++ [r]).drop ((history ++ [r]).length - cap)
  else history ++ [r]

/-- `SensorService._add_to_history` at the configured capacity 1000. -/
def addToHistory (history : List Reading) (r : Reading) : List Reading :=
  addToHistoryCap maxHistory history r

/-- `SensorService.get_history`: keeps exactly the stored readings whose
timestamp is at least `datetime.now() - timedelta(hours=hours)`, in stored
order. Time is modelled in seconds, so the cutoff is `now - hours * 3600`. -/
def getHistory (now : ℤ) (history : List Reading) (hours : ℤ) : List Reading :=
  history.filter (fun r => decide (now - hours * 3600 ≤ r.timestamp))

/-- State of `WebSocketManager` (`app/core/websocket_manager.py`):
connections are identified by opaque handles (here ℕ); `connection_data`
maps a handle to its `connected_at` time. -/
structure WebSocketManager where
  active_connections : List ℕ
  connection_data : List (ℕ × ℚ)
deriving DecidableEq, Repr

/-- `WebSocketManager.disconnect`: removes the handle from
`active_connections` if present, and then deletes its `connection_data`
entry if present; otherwise leaves the state unchanged. -/
def disconnect (m : WebSocketManager) (ws : ℕ) : WebSocketManager :=
  if ws ∈ m.active_connections then
    { active_connections := m.active_connections.erase ws,
      connection_data :=
        if m.connection_data.any (fun p => p.1 == ws) then
          m.connection_data.eraseP (fun p => p.1 == ws)
        else m.connection_data }
  else m

/-- `WebSocketManager.broadcast`: tries to send to every connection;
`sendFails ws` models `connection.send_text` raising for that handle. The
failed handles are collected into `disconnected` and then removed one by
one with `disconnect`, and no error propagates to the caller. -/
def broadcast (m : WebSocketManager) (sendFails : ℕ → Bool) : WebSocketManager :=
  (m.active_connections.filter sendFails).foldl disconnect m

/-- Round-half-to-even to an integer, the rounding used by Python `round`. -/
def roundHalfEven (q : ℚ) : ℤ :=
  if q - ⌊q⌋ < 1/2 then ⌊q⌋
  else if 1/2 < q - ⌊q⌋ then ⌊q⌋ + 1
  else if ⌊q⌋ % 2 = 0 then ⌊q⌋ else ⌊q⌋ + 1

/-- Python `round(q, d)`: round half to even at the `d`-th decimal place. -/
def pyRound (q : ℚ) (d : ℕ) : ℚ := (roundHalfEven (q * 10 ^ d) : ℚ) / 10 ^ d

/-- The record built by `SensorService._generate_simulated_data`, with the
field names of the generated dict (`temp`, `humidity`, `soil`, `co2`,
`light`, `ph`, `nutrients`). -/
structure SimRecord where
  temp : ℚ
  humidity : ℚ
  soil : ℚ
  co2 : ℤ
  light : ℚ
  ph : ℚ
  nutrients : ℚ
deriving DecidableEq, Repr

/-- `SensorService._generate_simulated_data`, with the random draws passed
explicitly: `ut = random.uniform(-3, 3)`, `uh = random.uniform(-15, 15)`,
`us = random.uniform(-0.2, 0.2)`, `kc = random.randint(-200, 200)`,
`ul = random.uniform(-100, 100)`, `up = random.uniform(-1, 1)`,
`un = random.uniform(0.3, 0.9)`. -/
def generateSimulatedData (ut uh us : ℚ) (kc : ℤ) (ul up un : ℚ) : SimRecord :=
  { temp := pyRound (23 + ut) 1
    humidity := max 0 (min 100 (pyRound (60 + uh) 1))
    soil := max 0 (min 1 (pyRound (3/5 + us) 2))
    co2 := max 300 (min 1500 (800 + kc))
    light := max 0 (pyRound (450 + ul) 1)
    ph := pyRound (13/2 + up) 1
    nutrients := pyRound un 2 }

/-- The `TelemetryData` that `SensorService._process_sensor_data` constructs
from a simulated record: required fields are taken directly; the optional
fields go through Python truthiness (`if data.get('light')` etc.), so a
value of 0 becomes `None`. -/
def telemetryFromRecord (rec : SimRecord) : TelemetryData :=
  { temperature := rec.temp
    humidity := rec.humidity
    soil_moisture := rec.soil
    co2_level := rec.co2
    light_level := if rec.light = 0 then none else some rec.light
    ph_level := if rec.ph = 0 then none else some rec.ph
    nutrient_level := if rec.nutrients = 0 then none else some rec.nutrients }

/-- Python `f"{x}"` formatting of a float value, modelled for rationals: an
integral value prints with a trailing `.0` as Python floats do (only
integral values are evaluated in the theorems below). -/
def pyFloatStr (q : ℚ) : String :=
  if q.den = 1 then toString q.num ++ ".0" else toString q

/-- Python `f"{x:.2f}"` formatting for a nonnegative rational: round half
to even at two decimals and print with exactly two decimal digits. -/
def fmt2f (q : ℚ) : String :=
  toString (roundHalfEven (q * 100) / 100) ++ "." ++
    (if (roundHalfEven (q * 100) % 100).natAbs < 10 then "0" else "") ++
    toString (roundHalfEven (q * 100) % 100).natAbs

/-- One alert dict built by `PlantCareScheduler._check_alerts`. -/
structure Alert where
  type : String
  title : String
  message : String
  category : String
deriving DecidableEq, Repr

/-- The threshold rules of `PlantCareScheduler._check_alerts`, in source
order: temperature (critical < 15, critical > 35), humidity (warning < 25,
warning > 85), soil moisture (critical < 0.2, warning > 0.9) and CO2
(info < 300), each with the message text of the source. -/
def checkAlerts (r : TelemetryData) : List Alert :=
  (if r.temperature < 15 then
    [{ type := "critical", title := "Critical Low Temperature",
       message := "Temperature is " ++ pyFloatStr r.temperature ++ "°C - Risk of plant damage",
       category := "temperature" }]
  else if 35 < r.temperature then
    [{ type := "critical", title := "Critical High Temperature",
       message := "Temperature is " ++ pyFloatStr r.temperature ++ "°C - Risk of heat stress",
       category := "temperature" }]
  else []) ++
  (if r.humidity < 25 then
    [{ type := "warning", title := "Low Humidity Alert",
       message := "Humidity is " ++ pyFloatStr r.humidity ++ "% - Consider humidification",
       category := "humidity" }]
  else if 85 < r.humidity then
    [{ type := "warning", title := "High Humidity Alert",
       message := "Humidity is " ++ pyFloatStr r.humidity ++ "% - Risk of fungal issues",
       category := "humidity" }]
  else []) ++
  (if r.soil_moisture < 1/5 then
    [{ type := "critical", title := "Low Soil Moisture",
       message := "Soil moisture is " ++ fmt2f r.soil_moisture ++ " - Plant needs watering",
       category := "watering" }]
  else if 9/10 < r.soil_moisture then
    [{ type := "warning", title := "Overwatering Risk",
       message := "Soil moisture is " ++ fmt2f r.soil_moisture ++ " - Risk of root rot",
       category := "watering" }]
  else []) ++
  (if r.co2_level < 300 then
    [{ type := "info", title := "Low CO2 Levels",
       message := "CO2 is " ++ toString r.co2_level ++ "ppm - Consider ventilation adjustment",
       category := "air_quality" }]
  else [])

/-- One `websocket_manager.broadcast` call made by `_check_alerts`,
carrying a batch of alerts as its `data`. -/
structure WsEvent where
  type : String
  alerts : List Alert
deriving DecidableEq, Repr

/-- The broadcasts issued by one run of `_check_alerts`: the whole alert
list is sent as a single `new_alerts` event, and nothing is sent when no
rule fires. -/
def checkAlertsEvents (r : TelemetryData) : List WsEvent :=
  if (checkAlerts r).isEmpty then [] else [{ type := "new_alerts", alerts := checkAlerts r }]

/-- `PredictionResponse` (`app/schemas/plant_schemas.py`); the
`predicted_values` dict is modelled as an insertion-ordered association
list. -/
structure PredictionResponse where
  prediction_type : String
  forecast_hours : ℤ
  predicted_values : List (String × ℚ)
  confidence : ℚ
  recommendations : List String
  risk_factors : List String
deriving DecidableEq, Repr

/-- Python `d.light_level or 500`: `or` replaces both `None` and 0 by 500. -/
def lightOr500 (d : TelemetryData) : ℚ :=
  match d.light_level with
  | none => 500
  | some x => if x = 0 then 500 else x

/-- The dataframe columns built in `predict_future_conditions`, in source
order, each with the projection used to fill it. -/
def dfColumns : List (String × (TelemetryData → ℚ)) :=
  [("temperature", TelemetryData.temperature),
   ("humidity", TelemetryData.humidity),
   ("soil_moisture", TelemetryData.soil_moisture),
   ("co2_level", fun d => (d.co2_level : ℚ)),
   ("light_level", lightOr500)]

/-- Slope of the least-squares line through the points `(i, ys[i])`, as
computed by `np.polyfit(x, values, 1)[0]` with `x = np.arange(len(values))`:
`(n·Σxy − Σx·Σy) / (n·Σx² − (Σx)²)`. -/
def polyfitSlope (ys : List ℚ) : ℚ :=
  let n : ℚ := ys.length
  let xs : List ℚ := (List.range ys.length).map (fun i => (i : ℚ))
  let sx := xs.sum
  let sy := ys.sum
  let sxy := ((List.zip xs ys).map (fun p => p.1 * p.2)).sum
  let sxx := (xs.map (fun x => x * x)).sum
  (n * sxy - sx * sy) / (n * sxx - sx * sx)

/-- `AIPlantAnalysisService.predict_future_conditions`: with fewer than 5
samples it returns the fixed insufficient-data response; otherwise, for
each column with at least 3 values it computes the least-squares slope and
stores `round(latest + slope * hours_ahead, 2)` in `predicted_values` and
the raw slope in `trends`, derives temperature / soil-moisture risk flags
from the predictions, and sets the confidence to 0.7 plus a 0.2 bonus when
every slope has magnitude below 0.1. -/
def predictFutureConditions (historical : List TelemetryData) (hoursAhead : ℤ) :
    PredictionResponse :=
  if historical.length < 5 then
    { prediction_type := "insufficient_data"
      forecast_hours := hoursAhead
      predicted_values := []
      confidence := 0
      recommendations := ["Collect more sensor data for accurate predictions"]
      risk_factors := ["Insufficient historical data"] }
  else
    let pt := dfColumns.foldl
      (fun (acc : List (String × ℚ) × List (String × ℚ)) col =>
        if 3 ≤ (historical.map col.2).length then
          (acc.1 ++ [(col.1, pyRound ((historical.map col.2).getLastD 0
                        + polyfitSlope (historical.map col.2) * (hoursAhead : ℚ)) 2)],
           acc.2 ++ [(col.1, polyfitSlope (historical.map col.2))])
        else acc)
      ([], [])
    let tempPred := (List.lookup "temperature" pt.1).getD 20
    let soilPred := (List.lookup "soil_moisture" pt.1).getD (1/2)
    let riskTemp : List String × List String :=
      if 30 < tempPred then (["Temperature trending too high"], ["Prepare cooling measures"])
      else if tempPred < 15 then (["Temperature trending too low"], ["Prepare heating"])
      else ([], [])
    let riskSoil : List String × List String :=
      if soilPred < 1/5 then (["Soil moisture decreasing rapidly"], ["Schedule watering"])
      else ([], [])
    { prediction_type := "trend_analysis"
      forecast_hours := hoursAhead
      predicted_values := pt.1
      confidence := if pt.2.all (fun p => decide (|p.2| < 1/10)) then 7/10 + 1/5 else 7/10
      recommendations := riskTemp.2 ++ riskSoil.2
      risk_factors := riskTemp.1 ++ riskSoil.1 }

/-- `AIPlantAnalysisService._generate_recommendations`: the rule-based
recommendations in source order, then the OpenAI-backed extension (only
when a client is configured and fewer than 3 rules fired; `aiRecs` models
the list returned by `_get_ai_recommendations`, empty when that call
fails), truncated to the first 5. -/
def generateRecommendations (t : TelemetryData) (healthScore : ℚ)
    (stressIndicators : List String) (hasOpenAI : Bool) (aiRecs : List String) :
    List String :=
  let recs :=
    (if t.temperature < 18 then ["Increase temperature - consider heating"]
     else if 28 < t.temperature then ["Reduce temperature - improve ventilation"] else []) ++
    (if t.humidity < 40 then ["Increase humidity - use humidifier"]
     else if 75 < t.humidity then ["Reduce humidity - improve air circulation"] else []) ++
    (if t.soil_moisture < 3/10 then ["Water the plant - soil is too dry"]
     else if 4/5 < t.soil_moisture then ["Reduce watering - risk of overwatering"] else []) ++
    (match t.light_level with
     | none => []
     | some l => if l ≠ 0 ∧ l < 300 then ["Increase light exposure - add grow lights"] else []) ++
    (if healthScore < 50 then ["Plant health is poor - review all environmental conditions"]
     else if healthScore < 70 then ["Monitor plant closely - some improvements needed"] else [])
  let recs2 := if hasOpenAI && decide (recs.length < 3) then recs ++ aiRecs else recs
  recs2.take 5

/-- JSON-like values for the WebSocket wire messages. -/
inductive JVal where
  | str : String → JVal
  | num : ℚ → JVal
  | arr : List JVal → JVal
  | obj : List (String × JVal) → JVal

/-- Field lookup in a JSON object. -/
def JVal.lookupField : JVal → String → Option JVal
  | .obj fields, k => fields.lookup k
  | _, _ => none

/-- A message carries the documented envelope when it is an object whose
`type` field is a string, whose `data` field is present, and whose
`timestamp` field is a string (the ISO-8601 text produced by
`datetime.now().isoformat()` at every conforming call site). -/
def isEnveloped (v : JVal) : Bool :=
  match v.lookupField "type", v.lookupField "data", v.lookupField "timestamp" with
  | some (.str _), some _, some (.str _) => true
  | _, _, _ => false

/-- The welcome message sent by `WebSocketManager.connect`: its timestamp
is the numeric event-loop time and its payload is a `message` string. -/
def connectionMsg (loopTime : ℚ) : JVal :=
  .obj [("type", .str "connection"),
        ("message", .str "Connected to Green Genesis Python Backend"),
        ("timestamp", .num loopTime)]

/-- The reply of `WebSocketManager.handle_message` to a `ping`. -/
def pongMsg : JVal := .obj [("type", .str "pong")]

/-- The reply of `WebSocketManager.handle_message` to an unknown message
type. -/
def unknownTypeMsg (messageType : String) : JVal :=
  .obj [("type", .str "error"),
        ("message", .str ("Unknown message type: " ++ messageType))]

/-- The reply of `WebSocketManager.handle_message` to malformed JSON. -/
def invalidJsonMsg : JVal :=
  .obj [("type", .str "error"), ("message", .str "Invalid JSON format")]

/-- The reply of `WebSocketManager.handle_subscription` to a recognized
subscription request. -/
def subscriptionConfirmedMsg (subscription : String) : JVal :=
  .obj [("type", .str "subscription_confirmed"), ("subscription", .str subscription)]

/-- The message shape built at every service-side
`websocket_manager.broadcast` call site:
`{"type": ..., "data": ..., "timestamp": datetime.now().isoformat()}`. -/
def broadcastEnvelope (ty : String) (data : JVal) (ts : String) : JVal :=
  .obj [("type", .str ty), ("data", data), ("timestamp", .str ts)]

/-- Substring test on character lists: the needle occurs contiguously in
the haystack. -/
def hasSubstring : List Char → List Char → Bool
  | needle, [] => needle.isEmpty
  | needle, a :: t => needle.isPrefixOf (a :: t) || hasSubstring needle t

/-! ## Theorems -/

unseal Rat.add Rat.mul Rat.inv Rat.sub Rat.ofScientific

/-- Claim C5: `get_history(d)` returns no entry whose timestamp is older
than `now − d`, and the returned entries appear in the same relative order
as they were inserted into the history (the result is a sublist of the
stored history). -/
theorem getHistory_window (now : ℤ) (history : List Reading) (hours : ℤ) :
    (∀ r ∈ getHistory now history hours, now - hours * 3600 ≤ r.timestamp) ∧
      List.Sublist (getHistory now history hours) history := by
  constructor
  · intro r hr
    unfold getHistory at hr
    exact of_decide_eq_true (List.mem_filter.mp hr).2
  · exact List.filter_sublist _

/-- Claim C3: `predict_future_conditions` on fewer than 5 readings returns
the fixed insufficient-data response: prediction type `insufficient_data`,
confidence exactly 0, empty predicted values, one explanatory
recommendation and one risk factor — and, being a total function of its
input, it never raises. -/
theorem predict_insufficient_data (historical : List TelemetryData) (hoursAhead : ℤ)
    (h : historical.length < 5) :
    predictFutureConditions historical hoursAhead =
      { prediction_type := "insufficient_data"
        forecast_hours := hoursAhead
        predicted_values := []
        confidence := 0
        recommendations := ["Collect more sensor data for accurate predictions"]
        risk_factors := ["Insufficient historical data"] } := by
  unfold predictFutureConditions
  rw [if_pos h]

/-- Witness for C3 at the empty history and a 24-hour horizon. -/
theorem predict_insufficient_data_witness :
    ([] : List TelemetryData).length < 5 ∧
      predictFutureConditions [] 24 =
        { prediction_type := "insufficient_data"
          forecast_hours := 24
          predicted_values := []
          confidence := 0
          recommendations := ["Collect more sensor data for accurate predictions"]
          risk_factors := ["Insufficient historical data"] } :=
  ⟨by decide, predict_insufficient_data [] 24 (by decide)⟩

/-- Claim C10: the rule-based recommendation generator always returns at
most 5 recommendations. -/
theorem recommendations_at_most_five (t : TelemetryData) (healthScore : ℚ)
    (stressIndicators : List String) (hasOpenAI : Bool) (aiRecs : List String) :
    (generateRecommendations t healthScore stressIndicators hasOpenAI aiRecs).length ≤ 5 := by
  unfold generateRecommendations
  rw [List.length_take]
  omega

/-- Counterexample for claim C7: the `pong` reply sent by
`handle_message` is `{"type": "pong"}` alone, so it does not carry the
`{type, data, timestamp}` envelope the claim asserts for every event. -/
theorem pong_not_enveloped : isEnveloped pongMsg = false := rfl

/-- Claim C7 (amended): every service-side broadcast call site builds the
`{type: string, data, timestamp: string}` envelope, but the per-connection
replies do not: the handshake has a numeric timestamp and a `message`
field instead of `data`, and the `pong`, `error` and
`subscription_confirmed` replies carry neither `data` nor `timestamp`. -/
theorem envelope_shapes :
    (∀ ty data ts, isEnveloped (broadcastEnvelope ty data ts) = true) ∧
    (∀ t, isEnveloped (connectionMsg t) = false) ∧
    isEnveloped pongMsg = false ∧
    (∀ mt, isEnveloped (unknownTypeMsg mt) = false) ∧
    isEnveloped invalidJsonMsg = false ∧
    (∀ s, isEnveloped (subscriptionConfirmedMsg s) = false) :=
  ⟨fun _ _ _ => rfl, fun _ => rfl, rfl, fun _ => rfl, rfl, fun _ => rfl⟩

/-- One append step preserves the last-`cap`-suffix invariant of the
history buffer. -/
theorem addToHistoryCap_drop (cap : ℕ) (hcap : 1 ≤ cap) (l : List Reading) (r : Reading) :
    addToHistoryCap cap (l.drop (l.length - cap)) r
      = (l ++ [r]).drop ((l ++ [r]).length - cap) := by
  unfold addToHistoryCap
  have hlen : (l.drop (l.length - cap)).length = l.length - (l.length - cap) :=
    List.length_drop _ _
  rcases lt_or_le l.length cap with hc | hc
  · have h0 : l.length - cap = 0 := by omega
    rw [h0, List.drop_zero, if_neg (by simp; omega)]
    have h1 : (l ++ [r]).length - cap = 0 := by simp; omega
    rw [h1, List.drop_zero]
  · rw [if_pos (by simp [hlen]; omega)]
    have h2 : (l.drop (l.length - cap) ++ [r]).length - cap = 1 := by
      simp [hlen]; omega
    rw [h2, List.drop_append_eq_append_drop, List.drop_drop]
    have h3 : 1 - (l.drop (l.length - cap)).length = 0 := by rw [hlen]; omega
    have h5 : (l ++ [r]).length - cap = l.length - cap + 1 := by simp; omega
    rw [h3, List.drop_zero, h5, List.drop_append_eq_append_drop]
    have h6 : l.length - cap + 1 - l.length = 0 := by omega
    rw [h6, List.drop_zero]

/-- Folding `_add_to_history` from the empty buffer keeps exactly the last
`cap` readings, for any capacity at least 1. -/
theorem addToHistoryCap_foldl (cap : ℕ) (hcap : 1 ≤ cap) (rs : List Reading) :
    rs.foldl (addToHistoryCap cap) [] = rs.drop (rs.length - cap) := by
  induction rs using List.reverseRecOn with
  | nil => simp
  | append_singleton rs r ih =>
    rw [List.foldl_append, List.foldl_cons, List.foldl_nil, ih]
    exact addToHistoryCap_drop cap hcap rs r

/-- Claim C1: appending any sequence of readings to an initially empty
history with `_add_to_history` leaves exactly the most recent
`max_history = 1000` readings, in arrival order, the oldest evicted first:
the buffer is always the final segment of the arrival sequence. -/
theorem history_fifo_eviction (rs : List Reading) :
    rs.foldl addToHistory [] = rs.drop (rs.length - maxHistory) :=
  addToHistoryCap_foldl maxHistory (by norm_num [maxHistory]) rs

/-- `disconnect` acts on the connection list as `List.erase` (removing the
handle if present is exactly erasure, which is the identity otherwise). -/
theorem disconnect_active (m : WebSocketManager) (ws : ℕ) :
    (disconnect m ws).active_connections = m.active_connections.erase ws := by
  by_cases h : ws ∈ m.active_connections
  · simp [disconnect, h]
  · simp [disconnect, h, List.erase_of_not_mem h]

/-- A fold of `disconnect` over a list of handles acts on the connection
list as the corresponding fold of `List.erase`. -/
theorem foldl_disconnect_active (l : List ℕ) (m : WebSocketManager) :
    (l.foldl disconnect m).active_connections
      = l.foldl List.erase m.active_connections := by
  induction l generalizing m with
  | nil => rfl
  | cons c l ih => rw [List.foldl_cons, List.foldl_cons, ih, disconnect_active]

/-- Erasing handles that are all different from the head leaves the head in
place. -/
theorem foldl_erase_cons_of_ne (l : List ℕ) (t : List ℕ) (a : ℕ)
    (h : ∀ c ∈ l, c ≠ a) :
    l.foldl List.erase (a :: t) = a :: l.foldl List.erase t := by
  induction l generalizing t with
  | nil => rfl
  | cons c l ih =>
    rw [List.foldl_cons, List.foldl_cons]
    have hac : ¬ (a == c) = true := by
      simp only [beq_iff_eq]
      exact fun hac => (h c (List.mem_cons_self c l)) (hac.symm)
    rw [List.erase_cons_tail hac]
    exact ih _ (fun c' hc' => h c' (List.mem_cons_of_mem _ hc'))

/-- Erasing, one occurrence at a time, every element selected by `p` from
the list it was selected from leaves exactly the elements rejected by `p`,
in order. -/
theorem foldl_erase_filter (p : ℕ → Bool) (act : List ℕ) :
    (act.filter p).foldl List.erase act = act.filter (fun c => !p c) := by
  induction act with
  | nil => rfl
  | cons a t ih =>
    by_cases hp : p a
    · rw [List.filter_cons_of_pos hp, List.foldl_cons, List.erase_cons_head,
        List.filter_cons_of_neg (by simp [hp])]
      exact ih
    · have hpa : p a = false := by simp [hp]
      rw [List.filter_cons_of_neg (by simp [hpa]),
        List.filter_cons_of_pos (by simp [hpa])]
      have hne : ∀ c ∈ t.filter p, c ≠ a := by
        intro c hc hca
        subst hca
        exact hp (List.of_mem_filter hc)
      rw [foldl_erase_cons_of_ne _ _ _ hne, ih]

/-- Splitting a list by a predicate preserves its length. -/
theorem length_filter_not_add (p : ℕ → Bool) (l : List ℕ) :
    (l.filter (fun c => !p c)).length + (l.filter p).length = l.length := by
  induction l with
  | nil => rfl
  | cons a t ih =>
    cases hp : p a <;> simp [List.filter_cons, hp] <;> omega

/-- Claim C2: `broadcast` with N registered subscribers of which M fail
delivery removes exactly the failed ones during the call (the survivors,
in order, are the non-failing subscribers) and leaves exactly N − M
subscribers registered; as a total function it surfaces no error. -/
theorem broadcast_removes_failed (m : WebSocketManager) (sendFails : ℕ → Bool) :
    (broadcast m sendFails).active_connections
        = m.active_connections.filter (fun c => !sendFails c) ∧
      (broadcast m sendFails).active_connections.length
          + (m.active_connections.filter sendFails).length
        = m.active_connections.length := by
  have h1 : (broadcast m sendFails).active_connections
      = m.active_connections.filter (fun c => !sendFails c) := by
    unfold broadcast
    rw [foldl_disconnect_active, foldl_erase_filter]
  exact ⟨h1, by rw [h1]; exact length_filter_not_add sendFails m.active_connections⟩

/-- Disconnecting an unregistered handle is a no-op. -/
theorem disconnect_of_not_mem (m : WebSocketManager) (ws : ℕ)
    (h : ws ∉ m.active_connections) : disconnect m ws = m := by
  unfold disconnect
  rw [if_neg h]

/-- Claim C8: with distinct registered handles, `disconnect` is idempotent —
a second call (including after the handle was already removed by a failed
broadcast) leaves both the connection list and the per-connection metadata
exactly as after the first call, and never raises. -/
theorem disconnect_idempotent (m : WebSocketManager) (ws : ℕ)
    (h : m.active_connections.Nodup) :
    disconnect (disconnect m ws) ws = disconnect m ws := by
  by_cases hmem : ws ∈ m.active_connections
  · apply disconnect_of_not_mem
    rw [disconnect_active]
    intro hin
    rw [List.Nodup.mem_erase_iff h] at hin
    exact hin.1 rfl
  · rw [disconnect_of_not_mem m ws hmem, disconnect_of_not_mem m ws hmem]

/-- Witness for C8 on a concrete two-subscriber state. -/
theorem disconnect_idempotent_witness :
    ({ active_connections := [1, 2], connection_data := [(1, 0), (2, 0)] }
        : WebSocketManager).active_connections.Nodup ∧
      disconnect (disconnect
          { active_connections := [1, 2], connection_data := [(1, 0), (2, 0)] } 1) 1
        = disconnect
          { active_connections := [1, 2], connection_data := [(1, 0), (2, 0)] } 1 :=
  ⟨by decide, disconnect_idempotent
    { active_connections := [1, 2], connection_data := [(1, 0), (2, 0)] } 1 (by decide)⟩

/-- The reading of the C4 scenario: temperature 12, humidity 60, soil
moisture 0.6, CO2 800. -/
def reading12 : TelemetryData :=
  { temperature := 12, humidity := 60, soil_moisture := 3/5, co2_level := 800 }

/-- Claim C4: on the scenario reading, `_check_alerts` produces exactly one
alert, a critical temperature alert whose message contains "12"; and for
every reading, one evaluation issues at most one broadcast, the single
`new_alerts` batch event carrying all fired alerts. -/
theorem checkAlerts_scenario :
    (checkAlerts reading12).length = 1 ∧
    (∀ a ∈ checkAlerts reading12, a.type = "critical" ∧ a.category = "temperature" ∧
        hasSubstring "12".data a.message.data = true) ∧
    (∀ r, checkAlertsEvents r
        = if (checkAlerts r).isEmpty then []
          else [{ type := "new_alerts", alerts := checkAlerts r }]) ∧
    (∀ r, (checkAlertsEvents r).length ≤ 1) := by
  refine ⟨by decide, by decide, fun r => rfl, fun r => ?_⟩
  unfold checkAlertsEvents
  split
  · exact Nat.le_of_lt_succ (by simp)
  · simp

/-- Kernel-evaluated distance bound for round-half-to-even: the result is
within half a unit of the argument. -/
theorem roundHalfEven_dist (q : ℚ) : |(roundHalfEven q : ℚ) - q| ≤ 1/2 := by
  have h0 : (⌊q⌋ : ℚ) ≤ q := Int.floor_le q
  have h1 : q < ⌊q⌋ + 1 := Int.lt_floor_add_one q
  unfold roundHalfEven
  split_ifs with hlt hgt heven <;> push_cast <;> rw [abs_le] <;> constructor <;> linarith

/-- Python `round(q, d)` changes its argument by at most half a unit in the
last rounded place. -/
theorem pyRound_dist (q : ℚ) (d : ℕ) : |pyRound q d - q| ≤ 1 / (2 * 10 ^ d) := by
  have h10 : (0 : ℚ) < 10 ^ d := by positivity
  have key := roundHalfEven_dist (q * 10 ^ d)
  have heq : pyRound q d - q = ((roundHalfEven (q * 10 ^ d) : ℚ) - q * 10 ^ d) / 10 ^ d := by
    rw [pyRound, sub_div]
    congr 1
    field_simp
  rw [heq, abs_div, abs_of_pos h10, div_le_iff₀ h10]
  have hval : (1 : ℚ) / (2 * 10 ^ d) * 10 ^ d = 1/2 := by field_simp; ring
  rw [hval]
  exact key

/-- Claim C9: for every admissible random draw, the record produced by the
degraded-mode generator `_generate_simulated_data` satisfies all the
`TelemetryData` construction ranges, so building the telemetry object from
it never fails validation. The draws are the `random.uniform` /
`random.randint` results with their documented bounds. -/
theorem simulated_data_valid (ut uh us : ℚ) (kc : ℤ) (ul up un : ℚ)
    (hut : -3 ≤ ut ∧ ut ≤ 3) (huh : -15 ≤ uh ∧ uh ≤ 15)
    (hus : -(1/5) ≤ us ∧ us ≤ 1/5) (hkc : -200 ≤ kc ∧ kc ≤ 200)
    (hul : -100 ≤ ul ∧ ul ≤ 100) (hup : -1 ≤ up ∧ up ≤ 1)
    (hun : 3/10 ≤ un ∧ un ≤ 9/10) :
    validTelemetry (telemetryFromRecord (generateSimulatedData ut uh us kc ul up un))
      = true := by
  obtain ⟨hut1, hut2⟩ := hut
  obtain ⟨hup1, hup2⟩ := hup
  obtain ⟨hun1, hun2⟩ := hun
  have htemp := abs_le.mp (pyRound_dist (23 + ut) 1)
  have hph := abs_le.mp (pyRound_dist (13/2 + up) 1)
  have hnut := abs_le.mp (pyRound_dist un 2)
  have e1 : (1 : ℚ) / (2 * 10 ^ 1) = 1/20 := by norm_num
  have e2 : (1 : ℚ) / (2 * 10 ^ 2) = 1/200 := by norm_num
  rw [e1] at htemp hph
  rw [e2] at hnut
  simp only [validTelemetry, telemetryFromRecord, generateSimulatedData,
    Bool.and_eq_true, decide_eq_true_eq]
  refine ⟨⟨⟨⟨⟨⟨⟨⟨⟨⟨?_, ?_⟩, ?_⟩, ?_⟩, ?_⟩, ?_⟩, ?_⟩, ?_⟩, ?_⟩, ?_⟩, ?_⟩
  · linarith [htemp.1]
  · linarith [htemp.2]
  · exact le_max_left _ _
  · exact max_le (by norm_num) (min_le_left _ _)
  · exact le_max_left _ _
  · exact max_le (by norm_num) (min_le_left _ _)
  · exact le_trans (by norm_num) (le_max_left _ _)
  · exact max_le (by norm_num) (le_trans (min_le_left _ _) (by norm_num))
  · split_ifs with h
    · rfl
    · simp only [Option.all, decide_eq_true_eq]
      exact le_max_left _ _
  · split_ifs with h
    · rfl
    · simp only [Option.all, Bool.and_eq_true, decide_eq_true_eq]
      constructor
      · linarith [hph.1]
      · linarith [hph.2]
  · split_ifs with h
    · rfl
    · simp only [Option.all, decide_eq_true_eq]
      linarith [hnut.1]

/-- Witness for C9 at the central draw (all offsets 0, nutrients 0.5). -/
theorem simulated_data_valid_witness :
    ((-3 ≤ (0:ℚ) ∧ (0:ℚ) ≤ 3) ∧ (-15 ≤ (0:ℚ) ∧ (0:ℚ) ≤ 15) ∧
      (-(1/5) ≤ (0:ℚ) ∧ (0:ℚ) ≤ 1/5) ∧ (-200 ≤ (0:ℤ) ∧ (0:ℤ) ≤ 200) ∧
      (-100 ≤ (0:ℚ) ∧ (0:ℚ) ≤ 100) ∧ (-1 ≤ (0:ℚ) ∧ (0:ℚ) ≤ 1) ∧
      (3/10 ≤ (1/2:ℚ) ∧ (1/2:ℚ) ≤ 9/10)) ∧
    validTelemetry (telemetryFromRecord (generateSimulatedData 0 0 0 0 0 0 (1/2)))
      = true :=
  ⟨⟨by decide, by decide, by decide, by decide, by decide, by decide, by decide⟩,
   simulated_data_valid 0 0 0 0 0 0 (1/2) (by decide) (by decide) (by decide)
     (by decide) (by decide) (by decide) (by decide)⟩

/-- Five constant readings, enough for the trend forecast. -/
def fiveReadings : List TelemetryData :=
  List.replicate 5 { temperature := 20, humidity := 50, soil_moisture := 1/2, co2_level := 800 }

/-- Five readings whose soil-moisture forecast has more than two decimal
places, so the stored prediction is changed by `round(..., 2)`. -/
def soilRamp : List TelemetryData :=
  [{ temperature := 20, humidity := 50, soil_moisture := 0, co2_level := 800 },
   { temperature := 20, humidity := 50, soil_moisture := 0, co2_level := 800 },
   { temperature := 20, humidity := 50, soil_moisture := 0, co2_level := 800 },
   { temperature := 20, humidity := 50, soil_moisture := 0, co2_level := 800 },
   { temperature := 20, humidity := 50, soil_moisture := 1/1000, co2_level := 800 }]

/-- Counterexample for C6: on `soilRamp` with a 1-hour horizon, the stored
soil-moisture prediction is 0 (the exact trend value 0.0012 rounded to two
decimals by `round(..., 2)`), so the point forecast does not equal the last
observed value plus slope times horizon. -/
theorem predict_rounding_counterexample :
    List.lookup "soil_moisture" (predictFutureConditions soilRamp 1).predicted_values
        = some 0 ∧
      (soilRamp.map TelemetryData.soil_moisture).getLastD 0
          + polyfitSlope (soilRamp.map TelemetryData.soil_moisture) * 1
        = 3/2500 ∧
      (0 : ℚ) ≠ 3/2500 := by decide

/-- Claim C6 (amended): with at least 5 readings, the forecast confidence
is 0.7 plus a bonus of exactly 0.2 when every fitted slope has magnitude
strictly below 0.1, hence never exceeds 0.9; and the stored point forecast
for each field is the last observed value plus the least-squares slope
times the horizon in hours, rounded to two decimal places by
`round(..., 2)`. -/
theorem predict_trend_confidence (historical : List TelemetryData) (hoursAhead : ℤ)
    (h : 5 ≤ historical.length) :
    (predictFutureConditions historical hoursAhead).confidence
        = (if (dfColumns.map (fun col => polyfitSlope (historical.map col.2))).all
              (fun t => decide (|t| < 1/10))
           then 7/10 + 1/5 else 7/10) ∧
      (predictFutureConditions historical hoursAhead).confidence ≤ 9/10 ∧
      (predictFutureConditions historical hoursAhead).predicted_values
        = dfColumns.map (fun col =>
            (col.1, pyRound ((historical.map col.2).getLastD 0
                      + polyfitSlope (historical.map col.2) * (hoursAhead : ℚ)) 2)) := by
  have h5 : ¬ historical.length < 5 := by omega
  have h3 : 3 ≤ historical.length := by omega
  refine ⟨?_, ?_, ?_⟩
  · unfold predictFutureConditions
    rw [if_neg h5]
    simp [dfColumns, List.length_map, h3]
  · unfold predictFutureConditions
    rw [if_neg h5]
    simp only [dfColumns, List.foldl_cons, List.foldl_nil, List.length_map, h3, if_true]
    split_ifs <;> norm_num
  · unfold predictFutureConditions
    rw [if_neg h5]
    simp [dfColumns, List.length_map, h3]

/-- Witness for the amended C6 on five constant readings at a 1-hour
horizon. -/
theorem predict_trend_confidence_witness :
    5 ≤ fiveReadings.length ∧
    ((predictFutureConditions fiveReadings 1).confidence
        = (if (dfColumns.map (fun col => polyfitSlope (fiveReadings.map col.2))).all
              (fun t => decide (|t| < 1/10))
           then 7/10 + 1/5 else 7/10) ∧
      (predictFutureConditions fiveReadings 1).confidence ≤ 9/10 ∧
      (predictFutureConditions fiveReadings 1).predicted_values
        = dfColumns.map (fun col =>
            (col.1, pyRound ((fiveReadings.map col.2).getLastD 0
                      + polyfitSlope (fiveReadings.map col.2) * (((1 : ℤ)) : ℚ)) 2))) :=
  ⟨by decide, predict_trend_confidence fiveReadings 1 (by decide)⟩

end GenesisAI
